import Mathlib

/-!
Verification of the delivery lifecycle engine of `src/doordash/app.py`
(repository `gateway-mocks`).

The Python module keeps a mutable map from delivery identifier to a
`Delivery` dataclass, creates records via `create_delivery`, cancels them
via `cancel_delivery`, lists them via `list_active_deliveries`, and runs a
background coroutine `simulate_delivery_progress` per delivery that sleeps
and then unconditionally writes the next status.

Embedding conventions:
* Python `datetime` values become abstract `Nat` time-stamps; `timedelta`
  addition becomes `Nat` addition.
* `random.choice` / `random.randint` become explicit oracle parameters
  (`AssignEnv.dasherChoice`, `AssignEnv.etaMinutes`): the code consumes one
  random index and one random minute count at the courier-assignment step.
* The float `rating` field is stored scaled by 100 as a `Nat`
  (4.8 becomes 480); no claim computes with ratings.
* The `dict` of deliveries becomes an insertion-ordered association list;
  assignment to an existing key replaces the value in place, as CPython
  dicts do.
* The per-delivery background coroutine is decomposed into its five write
  blocks (`engineStep 0` .. `engineStep 4`); interleavings of engine steps
  with cancellation requests are lists of `Event`s, where a valid trace
  fires the step indices in order `0, 1, 2, ...` (the coroutine executes
  its blocks sequentially, each at most once) with cancels interleaved
  arbitrarily.
-/

/-- Status string constants of the `DeliveryStatus` dataclass. -/
inductive Status where
  | CREATED
  | CONFIRMED
  | DASHER_ASSIGNED
  | PICKUP_IN_PROGRESS
  | ENROUTE_TO_DROPOFF
  | DELIVERED
  | CANCELED
deriving DecidableEq, Repr

/-- The `Dasher` dataclass.  `rating` is the float rating scaled by 100. -/
structure Dasher where
  id : String
  name : String
  rating : Nat
  vehicle_type : String
  phone_number : String
deriving DecidableEq, Repr

/-- The `Location` dataclass. -/
structure Location where
  address : String
  business_name : Option String := none
  phone_number : Option String := none
  instructions : Option String := none
deriving DecidableEq, Repr

/-- The `Delivery` dataclass.  `created_at` and `estimated_delivery_time`
are abstract `Nat` time-stamps. -/
structure Delivery where
  external_delivery_id : String
  pickup : Location
  dropoff : Location
  order_value : Int
  status : Status := Status.CREATED
  created_at : Nat := 0
  estimated_delivery_time : Option Nat := none
  dasher : Option Dasher := none
  tracking_url : Option String := none
deriving DecidableEq, Repr

/-- `AppState.generate_sample_dashers`: the fixed seed roster. -/
def generate_sample_dashers : List Dasher :=
  [ { id := "D1001", name := "Alex Johnson", rating := 480,
      vehicle_type := "car", phone_number := "+16505551234" },
    { id := "D1002", name := "Maya Rodriguez", rating := 490,
      vehicle_type := "bicycle", phone_number := "+16505552345" },
    { id := "D1003", name := "Jamal Williams", rating := 470,
      vehicle_type := "car", phone_number := "+16505553456" },
    { id := "D1004", name := "Sarah Chen", rating := 495,
      vehicle_type := "scooter", phone_number := "+16505554567" },
    { id := "D1005", name := "Carlos Mendez", rating := 480,
      vehicle_type := "car", phone_number := "+16505555678" } ]

/-- Placeholder dasher for the (unreachable) out-of-range index case of
`List.getD`; `random.choice` always indexes within the list. -/
def defaultDasher : Dasher :=
  { id := "", name := "", rating := 0, vehicle_type := "", phone_number := "" }

/-- `AppState.get_random_dasher`: seed the pool if empty, then pick the
element at the oracle index (`random.choice`).  Returns the picked dasher
together with the (possibly freshly seeded) pool. -/
def get_random_dasher (dashers : List Dasher) (choice : Nat) : Dasher × List Dasher :=
  let pool := if dashers.isEmpty then generate_sample_dashers else dashers
  (pool.getD (choice % pool.length) defaultDasher, pool)

/-- `generate_tracking_url`. -/
def generate_tracking_url (delivery_id : String) : String :=
  "https://doordash.com/tracking/" ++ delivery_id

/-- The delivery store `AppState.deliveries`: an insertion-ordered map. -/
abbrev Store := List (String × Delivery)

/-- `dict.get`: first (unique) binding of the key. -/
def storeGet (s : Store) (id : String) : Option Delivery :=
  (s.find? (fun p => p.1 == id)).map (fun p => p.2)

/-- `dict` assignment: replace the binding in place if the key exists
(CPython keeps its position), otherwise append. -/
def storeSet (s : Store) (id : String) (d : Delivery) : Store :=
  if s.any (fun p => p.1 == id) then
    s.map (fun p => if p.1 == id then (id, d) else p)
  else
    s ++ [(id, d)]

/-- Oracle inputs consumed by the courier-assignment step: the
`random.choice` index, the `datetime.now()` time-stamp and the
`random.randint(25, 45)` minute count. -/
structure AssignEnv where
  dasherChoice : Nat
  now : Nat
  etaMinutes : Nat
deriving DecidableEq, Repr

/-- One write block of `simulate_delivery_progress`, by 0-based position.
Block 0 sets CONFIRMED; block 1 assigns a dasher, sets DASHER_ASSIGNED,
the tracking URL and the estimated delivery time; blocks 2, 3, 4 set
PICKUP_IN_PROGRESS, ENROUTE_TO_DROPOFF, DELIVERED.  As in the source, no
block inspects the current status before writing. -/
def engineStep (k : Fin 5) (env : AssignEnv) (dashers : List Dasher)
    (d : Delivery) : Delivery :=
  match k with
  | ⟨0, _⟩ => { d with status := Status.CONFIRMED }
  | ⟨1, _⟩ =>
      let picked := (get_random_dasher dashers env.dasherChoice).1
      { d with dasher := some picked,
               status := Status.DASHER_ASSIGNED,
               tracking_url := some (generate_tracking_url d.external_delivery_id),
               estimated_delivery_time := some (env.now + env.etaMinutes) }
  | ⟨2, _⟩ => { d with status := Status.PICKUP_IN_PROGRESS }
  | ⟨3, _⟩ => { d with status := Status.ENROUTE_TO_DROPOFF }
  | ⟨4, _⟩ => { d with status := Status.DELIVERED }
  | ⟨n + 5, h⟩ => absurd h (by omega)

/-- The `asyncio.sleep` arguments of the five blocks, in order. -/
def engineDelays : List Nat := [2, 5, 8, 5, 10]

/-- Dasher name used in the progress messages (`delivery.dasher.name`). -/
def dasherNameOf (d : Delivery) : String :=
  (d.dasher.map (fun x => x.name)).getD ""

/-- The `ctx.info` message emitted after block `k`, computed from the
record as updated by that block. -/
def stepMessage (k : Fin 5) (d : Delivery) : String :=
  match k with
  | ⟨0, _⟩ => "Delivery " ++ d.external_delivery_id ++ " confirmed"
  | ⟨1, _⟩ => "Dasher " ++ dasherNameOf d ++ " assigned to delivery "
      ++ d.external_delivery_id
  | ⟨2, _⟩ => "Dasher " ++ dasherNameOf d ++ " arriving at pickup location"
  | ⟨3, _⟩ => "Dasher " ++ dasherNameOf d ++ " en route to delivery address"
  | ⟨4, _⟩ => "Delivery " ++ d.external_delivery_id ++ " completed"
  | ⟨n + 5, h⟩ => absurd h (by omega)

/-- `simulate_delivery_progress` run uninterrupted on a present record:
the list of (sleep delay, record after the write, emitted message) for the
five blocks, each delay counted from the completion of the previous
block. -/
def simulate_delivery_progress (env : AssignEnv) (dashers : List Dasher)
    (d0 : Delivery) : List (Nat × Delivery × String) :=
  let d1 := engineStep 0 env dashers d0
  let d2 := engineStep 1 env dashers d1
  let d3 := engineStep 2 env dashers d2
  let d4 := engineStep 3 env dashers d3
  let d5 := engineStep 4 env dashers d4
  [ (2, d1, stepMessage 0 d1),
    (5, d2, stepMessage 1 d2),
    (8, d3, stepMessage 2 d3),
    (5, d4, stepMessage 3 d4),
    (10, d5, stepMessage 4 d5) ]

/-- `create_delivery`.  `genId` is the value `generate_delivery_id()`
would produce (a random string), `now` the creation time-stamp.  Python's
`if not external_delivery_id` treats both `None` and the empty string as
missing.  The record is stored unconditionally: an existing binding for
the same identifier is replaced. -/
def create_delivery (external_delivery_id : Option String)
    (pickup_address : String)
    (pickup_business_name pickup_phone_number pickup_instructions : Option String)
    (dropoff_address : String)
    (dropoff_business_name dropoff_phone_number dropoff_instructions : Option String)
    (order_value : Int) (genId : String) (now : Nat) (s : Store) :
    Store × Delivery :=
  let id := match external_delivery_id with
    | none => genId
    | some i => if i = "" then genId else i
  let pickup : Location :=
    { address := pickup_address, business_name := pickup_business_name,
      phone_number := pickup_phone_number, instructions := pickup_instructions }
  let dropoff : Location :=
    { address := dropoff_address, business_name := dropoff_business_name,
      phone_number := dropoff_phone_number, instructions := dropoff_instructions }
  let delivery : Delivery :=
    { external_delivery_id := id, pickup := pickup, dropoff := dropoff,
      order_value := order_value, status := Status.CREATED, created_at := now }
  (storeSet s id delivery, delivery)

/-- `get_delivery_status`: `none` models the "Delivery not found" error
payload. -/
def get_delivery_status (delivery_id : String) (s : Store) : Option Delivery :=
  storeGet s delivery_id

/-- The `non_cancellable_statuses` list of `cancel_delivery`. -/
def non_cancellable_statuses : List Status :=
  [Status.DELIVERED, Status.CANCELED, Status.ENROUTE_TO_DROPOFF]

/-- Result of `cancel_delivery`: the not-found error payload, the
"Cannot cancel delivery" error payload (carrying the current status), or
the success payload with the updated record. -/
inductive CancelResult where
  | notFound (delivery_id : String)
  | invalidTransition (status : Status)
  | success (delivery : Delivery)
deriving DecidableEq, Repr

/-- `cancel_delivery`: returns the result payload and the store after the
call. -/
def cancel_delivery (delivery_id : String) (s : Store) : CancelResult × Store :=
  match storeGet s delivery_id with
  | none => (CancelResult.notFound delivery_id, s)
  | some d =>
      if d.status ∈ non_cancellable_statuses then
        (CancelResult.invalidTransition d.status, s)
      else
        (CancelResult.success { d with status := Status.CANCELED },
         storeSet s delivery_id { d with status := Status.CANCELED })

/-- `list_active_deliveries`: the bindings whose status is neither
DELIVERED nor CANCELED, in store order. -/
def list_active_deliveries (s : Store) : List (String × Delivery) :=
  s.filter (fun p =>
    p.2.status != Status.DELIVERED && p.2.status != Status.CANCELED)

/-- Effect of `cancel_delivery` on the record itself: refuse if the
status is non-cancellable, else set CANCELED.  This is the record-level
core of lines 337-352 of the source. -/
def cancelRecord (d : Delivery) : Delivery :=
  if d.status ∈ non_cancellable_statuses then d
  else { d with status := Status.CANCELED }

/-- One observable mutation of a single delivery record: an engine write
block firing, or a cancellation request arriving. -/
inductive Event where
  | step (k : Fin 5) (env : AssignEnv)
  | cancel
deriving DecidableEq, Repr

/-- Apply one event to the record. -/
def applyEvent (dashers : List Dasher) (d : Delivery) : Event → Delivery
  | Event.step k env => engineStep k env dashers d
  | Event.cancel => cancelRecord d

/-- Indices of the engine blocks that fire in a trace, in firing order. -/
def stepIndices : List Event → List Nat
  | [] => []
  | Event.step k _ :: es => k.val :: stepIndices es
  | Event.cancel :: es => stepIndices es

/-- `natRange s n = [s, s+1, ..., s+n-1]`. -/
def natRange (s : Nat) : Nat → List Nat
  | 0 => []
  | n + 1 => s :: natRange (s + 1) n

/-- A physically possible interleaving: the engine coroutine executes its
blocks sequentially, so the block indices occurring in the trace are
exactly `0, 1, 2, ...` in order (a prefix of the schedule), with
cancellation requests interleaved arbitrarily. -/
def ValidTrace (es : List Event) : Prop :=
  stepIndices es = natRange 0 (stepIndices es).length

instance (es : List Event) : Decidable (ValidTrace es) := by
  unfold ValidTrace; infer_instance

/-- Statuses the stored record passes through along a trace, starting
value included. -/
def observedStatuses (dashers : List Dasher) (d : Delivery)
    (es : List Event) : List Status :=
  (List.scanl (applyEvent dashers) d es).map Delivery.status

/-- Drop CANCELED entries. -/
def nonCanceled : List Status → List Status
  | [] => []
  | a :: l => if a = Status.CANCELED then nonCanceled l else a :: nonCanceled l

/-- Collapse consecutive duplicates (a record "passes through" a status
once per change, however many events leave it unchanged). -/
def dedupConsec : List Status → List Status
  | [] => []
  | [a] => [a]
  | a :: b :: l =>
      if a = b then dedupConsec (b :: l) else a :: dedupConsec (b :: l)

/-- The forward status chain of the state machine. -/
def statusChain : List Status :=
  [Status.CREATED, Status.CONFIRMED, Status.DASHER_ASSIGNED,
   Status.PICKUP_IN_PROGRESS, Status.ENROUTE_TO_DROPOFF, Status.DELIVERED]

/-- Status after `n` engine blocks have fired (out-of-range arguments
return CANCELED, which never occurs for `n ≤ 5`). -/
def chainAt (n : Nat) : Status := statusChain.getD n Status.CANCELED

/-- Boolean sublist test (order-preserving, not necessarily contiguous). -/
def isSublistOf : List Status → List Status → Bool
  | [], _ => true
  | _ :: _, [] => false
  | a :: l, b :: m => if a = b then isSublistOf l m else isSublistOf (a :: l) m

/-- The history shape asserted by the specification: a subsequence of the
forward chain, optionally truncated and ended by a terminal CANCELED. -/
def legalHistory (l : List Status) : Bool :=
  isSublistOf l statusChain ||
    (match l.getLast? with
     | some Status.CANCELED => isSublistOf l.dropLast statusChain
     | _ => false)

/-- Statuses in which the specification asserts a courier is assigned. -/
def assignedStatuses : List Status :=
  [Status.DASHER_ASSIGNED, Status.PICKUP_IN_PROGRESS,
   Status.ENROUTE_TO_DROPOFF, Status.DELIVERED]

/-! ## Store lemmas -/

lemma storeGet_cons_ne {p : String × Delivery} {id : String}
    (h : (p.1 == id) = false) (t : Store) :
    storeGet (p :: t) id = storeGet t id := by
  unfold storeGet
  rw [List.find?_cons_of_neg _ (by simp [h])]

lemma storeGet_storeSet_self (s : Store) (id : String) (d : Delivery) :
    storeGet (storeSet s id d) id = some d := by
  induction s with
  | nil => simp [storeGet, storeSet]
  | cons p t ih =>
      by_cases hp : p.1 = id
      · simp [storeSet, storeGet, List.any_cons, hp]
      · have hb : (p.1 == id) = false := by simp [hp]
        cases ht : t.any (fun q => q.1 == id) with
        | true =>
            have h1 : storeSet t id d
                = t.map (fun q => if q.1 == id then (id, d) else q) := by
              simp [storeSet, ht]
            have h3 : storeSet (p :: t) id d
                = p :: t.map (fun q => if q.1 == id then (id, d) else q) := by
              simp [storeSet, List.any_cons, hb, ht]
              exact fun hc => absurd hc hp
            rw [h3, storeGet_cons_ne hb, ← h1]
            exact ih
        | false =>
            have h1 : storeSet t id d = t ++ [(id, d)] := by
              simp [storeSet, ht]
            have h3 : storeSet (p :: t) id d = p :: (t ++ [(id, d)]) := by
              simp [storeSet, List.any_cons, hb, ht]
            rw [h3, storeGet_cons_ne hb, ← h1]
            exact ih

/-! ## Chain, step and cancel lemmas -/

lemma chainAt_ne_canceled {n : Nat} (h : n ≤ 5) : chainAt n ≠ Status.CANCELED := by
  interval_cases n <;> decide

lemma statusChain_drop (n : Nat) (h : n ≤ 5) :
    statusChain.drop n = chainAt n :: statusChain.drop (n + 1) := by
  interval_cases n <;> rfl

lemma chainAt_ne_next {n : Nat} (h : n ≤ 4) : chainAt n ≠ chainAt (n + 1) := by
  interval_cases n <;> decide

lemma engineStep_status (k : Fin 5) (env : AssignEnv) (dashers : List Dasher)
    (d : Delivery) : (engineStep k env dashers d).status = chainAt (k.val + 1) := by
  fin_cases k <;> rfl

lemma engineStep_one (env : AssignEnv) (dashers : List Dasher) (d : Delivery) :
    (engineStep 1 env dashers d).dasher
        = some (get_random_dasher dashers env.dasherChoice).1 ∧
    (engineStep 1 env dashers d).tracking_url
        = some (generate_tracking_url d.external_delivery_id) ∧
    (engineStep 1 env dashers d).estimated_delivery_time
        = some (env.now + env.etaMinutes) :=
  ⟨rfl, rfl, rfl⟩

lemma engineStep_preserve {k : Fin 5} (hk : k.val ≠ 1) (env : AssignEnv)
    (dashers : List Dasher) (d : Delivery) :
    (engineStep k env dashers d).dasher = d.dasher ∧
    (engineStep k env dashers d).tracking_url = d.tracking_url ∧
    (engineStep k env dashers d).estimated_delivery_time
        = d.estimated_delivery_time := by
  fin_cases k
  · exact ⟨rfl, rfl, rfl⟩
  · exact absurd rfl hk
  · exact ⟨rfl, rfl, rfl⟩
  · exact ⟨rfl, rfl, rfl⟩
  · exact ⟨rfl, rfl, rfl⟩

lemma cancelRecord_frame (d : Delivery) :
    (cancelRecord d).external_delivery_id = d.external_delivery_id ∧
    (cancelRecord d).dasher = d.dasher ∧
    (cancelRecord d).tracking_url = d.tracking_url ∧
    (cancelRecord d).estimated_delivery_time = d.estimated_delivery_time := by
  unfold cancelRecord
  split <;> exact ⟨rfl, rfl, rfl, rfl⟩

lemma cancelRecord_status (d : Delivery) :
    (cancelRecord d).status = d.status ∨
    (cancelRecord d).status = Status.CANCELED := by
  unfold cancelRecord
  split
  · exact Or.inl rfl
  · exact Or.inr rfl

/-! ## Trace bookkeeping lemmas -/

lemma natRange_length (s n : Nat) : (natRange s n).length = n := by
  induction n generalizing s with
  | zero => rfl
  | succ n ih => simp [natRange, ih]

lemma mem_natRange {x s n : Nat} : x ∈ natRange s n ↔ s ≤ x ∧ x < s + n := by
  induction n generalizing s with
  | zero => simp [natRange]
  | succ n ih =>
      simp [natRange, ih]
      omega

lemma stepIndices_append (a b : List Event) :
    stepIndices (a ++ b) = stepIndices a ++ stepIndices b := by
  induction a with
  | nil => rfl
  | cons e t ih => cases e <;> simp [stepIndices, ih]

lemma stepIndices_lt {es : List Event} {x : Nat}
    (h : x ∈ stepIndices es) : x < 5 := by
  induction es with
  | nil => simp [stepIndices] at h
  | cons e t ih =>
      cases e with
      | step k env =>
          simp only [stepIndices, List.mem_cons] at h
          rcases h with h | h
          · exact h ▸ k.isLt
          · exact ih h
      | cancel =>
          simp only [stepIndices] at h
          exact ih h

lemma natRange_append_inv : ∀ (a b : List Nat) (s : Nat),
    a ++ b = natRange s (a.length + b.length) →
    a = natRange s a.length ∧ b = natRange (s + a.length) b.length := by
  intro a
  induction a with
  | nil =>
      intro b s h
      refine ⟨rfl, ?_⟩
      simpa using h
  | cons x t ih =>
      intro b s h
      rw [List.cons_append, List.length_cons,
          Nat.add_right_comm t.length 1 b.length, natRange] at h
      have hx : x = s := (List.cons.injEq _ _ _ _ ▸ h).1
      have ht : t ++ b = natRange (s + 1) (t.length + b.length) :=
        (List.cons.injEq _ _ _ _ ▸ h).2
      obtain ⟨h1, h2⟩ := ih b (s + 1) ht
      constructor
      · have hshape : natRange s (x :: t).length
            = s :: natRange (s + 1) t.length := rfl
        rw [hshape, hx, ← h1]
      · have hidx : s + (x :: t).length = s + 1 + t.length := by
          rw [List.length_cons]
          omega
        rw [hidx]
        exact h2
lemma validTrace_length_le {es : List Event} (h : ValidTrace es) :
    (stepIndices es).length ≤ 5 := by
  by_contra hlt
  push_neg at hlt
  have h5 : (5 : Nat) ∈ stepIndices es := by
    rw [h]
    exact mem_natRange.mpr (by omega)
  exact absurd (stepIndices_lt h5) (by omega)

lemma validTrace_split {a b : List Event} (h : ValidTrace (a ++ b)) :
    stepIndices a = natRange 0 (stepIndices a).length ∧
    stepIndices b = natRange (stepIndices a).length (stepIndices b).length := by
  unfold ValidTrace at h
  rw [stepIndices_append] at h
  have h2 := natRange_append_inv (stepIndices a) (stepIndices b) 0
    (by simpa [List.length_append] using h)
  simpa using h2

/-! ## Reachability invariant for a single record -/

/-- Invariant of a record once `n` engine blocks have fired: the status is
the `n`-th chain status unless a cancellation landed, and the courier,
tracking URL and estimated time are present exactly from block 1 (the
second block) onward. -/
structure DInv (n : Nat) (d : Delivery) : Prop where
  status_ok : d.status = chainAt n ∨ d.status = Status.CANCELED
  dasher_ok : d.dasher.isSome = decide (2 ≤ n)
  tracking_ok : d.tracking_url.isSome = decide (2 ≤ n)
  eta_ok : d.estimated_delivery_time.isSome = decide (2 ≤ n)

lemma DInv_cancelRecord {n : Nat} {d : Delivery} (h : DInv n d) :
    DInv n (cancelRecord d) := by
  refine ⟨?_, ?_, ?_, ?_⟩
  · rcases cancelRecord_status d with hs | hs
    · rw [hs]; exact h.status_ok
    · exact Or.inr hs
  · rw [(cancelRecord_frame d).2.1]; exact h.dasher_ok
  · rw [(cancelRecord_frame d).2.2.1]; exact h.tracking_ok
  · rw [(cancelRecord_frame d).2.2.2]; exact h.eta_ok

lemma DInv_engineStep {n : Nat} {d : Delivery} (k : Fin 5) (env : AssignEnv)
    (dashers : List Dasher) (hk : k.val = n) (h : DInv n d) :
    DInv (n + 1) (engineStep k env dashers d) := by
  refine ⟨Or.inl (by rw [engineStep_status, hk]), ?_, ?_, ?_⟩
  all_goals by_cases h1 : k.val = 1
  · have hk1 : k = (1 : Fin 5) := Fin.ext h1
    rw [hk1, (engineStep_one env dashers d).1]
    have : n = 1 := by omega
    simp [this]
  · rw [(engineStep_preserve h1 env dashers d).1, h.dasher_ok,
        decide_eq_decide]
    omega
  · have hk1 : k = (1 : Fin 5) := Fin.ext h1
    rw [hk1, (engineStep_one env dashers d).2.1]
    have : n = 1 := by omega
    simp [this]
  · rw [(engineStep_preserve h1 env dashers d).2.1, h.tracking_ok,
        decide_eq_decide]
    omega
  · have hk1 : k = (1 : Fin 5) := Fin.ext h1
    rw [hk1, (engineStep_one env dashers d).2.2]
    have : n = 1 := by omega
    simp [this]
  · rw [(engineStep_preserve h1 env dashers d).2.2, h.eta_ok,
        decide_eq_decide]
    omega

lemma run_inv (dashers : List Dasher) :
    ∀ (es : List Event) (n : Nat) (d : Delivery),
      stepIndices es = natRange n (stepIndices es).length →
      DInv n d →
      DInv (n + (stepIndices es).length) (List.foldl (applyEvent dashers) d es) := by
  intro es
  induction es with
  | nil =>
      intro n d _ hinv
      simpa [stepIndices] using hinv
  | cons e t ih =>
      intro n d hidx hinv
      cases e with
      | cancel =>
          simp only [stepIndices] at hidx ⊢
          exact ih n (cancelRecord d) hidx (DInv_cancelRecord hinv)
      | step k env =>
          simp only [stepIndices, List.length_cons, natRange] at hidx
          have hk : k.val = n := (List.cons.injEq _ _ _ _ ▸ hidx).1
          have ht : stepIndices t = natRange (n + 1) (stepIndices t).length :=
            (List.cons.injEq _ _ _ _ ▸ hidx).2
          have h2 := ih (n + 1) (engineStep k env dashers d) ht
            (DInv_engineStep k env dashers hk hinv)
          have harith : n + 1 + (stepIndices t).length
              = n + (stepIndices (Event.step k env :: t)).length := by
            simp only [stepIndices, List.length_cons]
            omega
          rw [← harith]
          exact h2

/-! ## Observed status sequences -/

lemma observed_nil (dashers : List Dasher) (d : Delivery) :
    observedStatuses dashers d [] = [d.status] := rfl

lemma observed_cons (dashers : List Dasher) (d : Delivery) (e : Event)
    (es : List Event) :
    observedStatuses dashers d (e :: es)
      = d.status :: observedStatuses dashers (applyEvent dashers d e) es := by
  unfold observedStatuses
  rw [List.scanl_cons]
  rfl

lemma nonCanceled_cons_ne {a : Status} (h : a ≠ Status.CANCELED)
    (l : List Status) : nonCanceled (a :: l) = a :: nonCanceled l := by
  simp [nonCanceled, h]

lemma nonCanceled_cons_canceled (l : List Status) :
    nonCanceled (Status.CANCELED :: l) = nonCanceled l := by
  simp [nonCanceled]

lemma nonCanceled_observed_head (dashers : List Dasher) (d : Delivery)
    (es : List Event) (h : d.status ≠ Status.CANCELED) :
    ∃ tl, nonCanceled (observedStatuses dashers d es) = d.status :: tl := by
  cases es with
  | nil =>
      refine ⟨[], ?_⟩
      rw [observed_nil, nonCanceled_cons_ne h]
      rfl
  | cons e es =>
      refine ⟨nonCanceled (observedStatuses dashers (applyEvent dashers d e) es), ?_⟩
      rw [observed_cons, nonCanceled_cons_ne h]

lemma dedupConsec_pair_eq (a : Status) (l : List Status) :
    dedupConsec (a :: a :: l) = dedupConsec (a :: l) := by
  simp [dedupConsec]

lemma dedupConsec_pair_ne {a b : Status} (h : a ≠ b) (l : List Status) :
    dedupConsec (a :: b :: l) = a :: dedupConsec (b :: l) := by
  simp [dedupConsec, h]

lemma dedupConsec_head : ∀ l : List Status, (dedupConsec l).head? = l.head?
  | [] => rfl
  | [_] => rfl
  | a :: b :: l => by
      by_cases h : a = b
      · subst h
        rw [dedupConsec_pair_eq, dedupConsec_head (a :: l)]
        rfl
      · rw [dedupConsec_pair_ne h]
        rfl

lemma dedupConsec_eq_nil {l : List Status} (h : dedupConsec l = []) :
    l = [] := by
  cases l with
  | nil => rfl
  | cons a t =>
      have hh := dedupConsec_head (a :: t)
      rw [h] at hh
      simp at hh

/-- Shape of the deduplicated, CANCELED-free observed sequence along any
valid trace: starting from the `n`-th chain status it is the chain segment
from `n` covering all fired blocks; starting from CANCELED it is the chain
segment from `n + 1` (the head is filtered out and the next block, if any,
writes chain status `n + 1`). -/
lemma obs_spec (dashers : List Dasher) :
    ∀ (es : List Event) (n : Nat) (d : Delivery),
      n + (stepIndices es).length ≤ 5 →
      stepIndices es = natRange n (stepIndices es).length →
      ((d.status = chainAt n →
          dedupConsec (nonCanceled (observedStatuses dashers d es))
            = (statusChain.drop n).take ((stepIndices es).length + 1)) ∧
       (d.status = Status.CANCELED →
          dedupConsec (nonCanceled (observedStatuses dashers d es))
            = (statusChain.drop (n + 1)).take (stepIndices es).length)) := by
  intro es
  induction es with
  | nil =>
      intro n d hle _
      constructor
      · intro hs
        rw [observed_nil, hs,
            nonCanceled_cons_ne (chainAt_ne_canceled (by omega)),
            statusChain_drop n (by omega)]
        rfl
      · intro hs
        rw [observed_nil, hs, nonCanceled_cons_canceled]
        rfl
  | cons e t ih =>
      intro n d hle hidx
      cases e with
      | cancel =>
          simp only [stepIndices] at hle hidx ⊢
          constructor
          · intro hs
            rw [observed_cons]
            simp only [applyEvent]
            by_cases hc : d.status ∈ non_cancellable_statuses
            · have hcr : cancelRecord d = d := by simp [cancelRecord, hc]
              rw [hcr, hs,
                  nonCanceled_cons_ne (chainAt_ne_canceled (by omega))]
              obtain ⟨tl, hX⟩ := nonCanceled_observed_head dashers d t
                (by rw [hs]; exact chainAt_ne_canceled (by omega))
              rw [hs] at hX
              rw [hX, dedupConsec_pair_eq, ← hX]
              exact (ih n d hle hidx).1 hs
            · have hcr : cancelRecord d = { d with status := Status.CANCELED } := by
                simp [cancelRecord, hc]
              have hB := (ih n { d with status := Status.CANCELED } hle hidx).2 rfl
              rw [hcr, hs,
                  nonCanceled_cons_ne (chainAt_ne_canceled (by omega))]
              rcases Nat.eq_zero_or_pos (stepIndices t).length with hk | hk
              · rw [hk] at hB ⊢
                simp only [List.take_zero] at hB
                rw [dedupConsec_eq_nil hB]
                rw [statusChain_drop n (by omega)]
                rfl
              · obtain ⟨m, hm⟩ : ∃ m, (stepIndices t).length = m + 1 :=
                  ⟨(stepIndices t).length - 1, by omega⟩
                have hd := dedupConsec_head
                  (nonCanceled (observedStatuses dashers
                    { d with status := Status.CANCELED } t))
                rw [hB, statusChain_drop (n + 1) (by omega), hm] at hd
                cases hXc : nonCanceled (observedStatuses dashers
                    { d with status := Status.CANCELED } t) with
                | nil =>
                    rw [hXc] at hd
                    simp at hd
                | cons x tl =>
                    rw [hXc] at hd
                    simp only [List.take_succ_cons, List.head?_cons,
                      Option.some.injEq] at hd
                    rw [hXc] at hB
                    rw [← hd,
                        dedupConsec_pair_ne (chainAt_ne_next (by omega)),
                        hd, hB,
                        statusChain_drop n (by omega)]
                    rfl
          · intro hs
            have hc : d.status ∈ non_cancellable_statuses := by
              rw [hs]
              decide
            have hcr : cancelRecord d = d := by simp [cancelRecord, hc]
            rw [observed_cons]
            simp only [applyEvent]
            rw [hcr, hs, nonCanceled_cons_canceled]
            exact (ih n d hle hidx).2 hs
      | step k env =>
          simp only [stepIndices, List.length_cons] at hle hidx ⊢
          rw [natRange] at hidx
          have hk : k.val = n := (List.cons.injEq _ _ _ _ ▸ hidx).1
          have ht : stepIndices t = natRange (n + 1) (stepIndices t).length :=
            (List.cons.injEq _ _ _ _ ▸ hidx).2
          have hle2 : (n + 1) + (stepIndices t).length ≤ 5 := by omega
          have hstat : (engineStep k env dashers d).status = chainAt (n + 1) := by
            rw [engineStep_status, hk]
          have hA := (ih (n + 1) (engineStep k env dashers d) hle2 ht).1 hstat
          constructor
          · intro hs
            rw [observed_cons]
            simp only [applyEvent]
            rw [hs, nonCanceled_cons_ne (chainAt_ne_canceled (by omega))]
            obtain ⟨tl, hX⟩ := nonCanceled_observed_head dashers
              (engineStep k env dashers d) t
              (by rw [hstat]; exact chainAt_ne_canceled (by omega))
            rw [hstat] at hX
            rw [hX, dedupConsec_pair_ne (chainAt_ne_next (by omega)), ← hX,
                hA, statusChain_drop n (by omega)]
            rfl
          · intro hs
            rw [observed_cons]
            simp only [applyEvent]
            rw [hs, nonCanceled_cons_canceled]
            exact hA

/-! ## Preservation of assignment fields after block 1 -/

lemma foldl_preserve_assigned (dashers : List Dasher) :
    ∀ (es : List Event) (d : Delivery),
      (∀ x ∈ stepIndices es, 2 ≤ x) →
      ((List.foldl (applyEvent dashers) d es).dasher = d.dasher ∧
       (List.foldl (applyEvent dashers) d es).tracking_url = d.tracking_url ∧
       (List.foldl (applyEvent dashers) d es).estimated_delivery_time
         = d.estimated_delivery_time) := by
  intro es
  induction es with
  | nil => intro d _; exact ⟨rfl, rfl, rfl⟩
  | cons e t ih =>
      intro d hmem
      cases e with
      | cancel =>
          have hmem2 : ∀ x ∈ stepIndices t, 2 ≤ x := by
            intro x hx
            exact hmem x (by simpa [stepIndices] using hx)
          have h2 := ih (cancelRecord d) hmem2
          have hf := cancelRecord_frame d
          refine ⟨?_, ?_, ?_⟩
          · show (List.foldl (applyEvent dashers) (cancelRecord d) t).dasher
              = d.dasher
            rw [h2.1, hf.2.1]
          · show (List.foldl (applyEvent dashers) (cancelRecord d) t).tracking_url
              = d.tracking_url
            rw [h2.2.1, hf.2.2.1]
          · show (List.foldl (applyEvent dashers)
                (cancelRecord d) t).estimated_delivery_time
              = d.estimated_delivery_time
            rw [h2.2.2, hf.2.2.2]
      | step k env =>
          have hk2 : 2 ≤ k.val := hmem k.val (by simp [stepIndices])
          have hk1 : k.val ≠ 1 := by omega
          have hmem2 : ∀ x ∈ stepIndices t, 2 ≤ x := by
            intro x hx
            refine hmem x ?_
            simp only [stepIndices, List.mem_cons]
            exact Or.inr hx
          have h2 := ih (engineStep k env dashers d) hmem2
          have hp := engineStep_preserve hk1 env dashers d
          refine ⟨?_, ?_, ?_⟩
          · show (List.foldl (applyEvent dashers)
                (engineStep k env dashers d) t).dasher = d.dasher
            rw [h2.1, hp.1]
          · show (List.foldl (applyEvent dashers)
                (engineStep k env dashers d) t).tracking_url = d.tracking_url
            rw [h2.2.1, hp.2.1]
          · show (List.foldl (applyEvent dashers)
                (engineStep k env dashers d) t).estimated_delivery_time
              = d.estimated_delivery_time
            rw [h2.2.2, hp.2.2]

/-! ## Miscellaneous helper lemmas -/

lemma chainAt_mem_assigned {m : Nat} (hm : m ≤ 5)
    (h : chainAt m ∈ assignedStatuses) : 2 ≤ m := by
  interval_cases m <;> revert h <;> decide

lemma getD_mem {l : List Dasher} {n : Nat} (h : n < l.length) (dflt : Dasher) :
    l.getD n dflt ∈ l := by
  induction l generalizing n with
  | nil => simp at h
  | cons a t ih =>
      cases n with
      | zero =>
          rw [List.getD_cons_zero]
          exact List.mem_cons_self a t
      | succ m =>
          rw [List.getD_cons_succ]
          exact List.mem_cons_of_mem a (ih (by simpa using h))

lemma get_random_dasher_mem (dashers : List Dasher) (choice : Nat) :
    (get_random_dasher dashers choice).1
      ∈ (if dashers.isEmpty then generate_sample_dashers else dashers) := by
  unfold get_random_dasher
  have hne : (if dashers.isEmpty then generate_sample_dashers else dashers) ≠ [] := by
    split
    · simp [generate_sample_dashers]
    · rename_i hh
      intro hc
      rw [hc] at hh
      simp at hh
  have hlt : choice % (if dashers.isEmpty then generate_sample_dashers
      else dashers).length
      < (if dashers.isEmpty then generate_sample_dashers else dashers).length :=
    Nat.mod_lt _ (List.length_pos.mpr hne)
  exact getD_mem hlt defaultDasher

/-! ## Sample records used by witnesses -/

/-- A freshly created sample record (pickup "100 Main St", dropoff
"200 Oak Ave", order value 1999), as produced by `create_delivery`. -/
def wDelivery : Delivery :=
  (create_delivery (some "W1") "100 Main St" none none none "200 Oak Ave"
    none none none 1999 "G0" 0 []).2

/-- The same record already delivered. -/
def wDelivered : Delivery :=
  { wDelivery with external_delivery_id := "W2", status := Status.DELIVERED }

/-- Sample oracle values for the assignment block. -/
def wEnv : AssignEnv := { dasherChoice := 0, now := 100, etaMinutes := 30 }

/-! ## Claims -/

/-- C4: `cancel_delivery` fails with the not-found payload when the
identifier is absent (store unchanged); fails with the invalid-transition
payload and leaves the store unchanged when the current status is
DELIVERED, CANCELED or ENROUTE_TO_DROPOFF; and otherwise sets the status
to CANCELED, stores the update, and returns the updated record. -/
theorem C4_cancel_delivery_spec (s : Store) (id : String) :
    (storeGet s id = none →
      cancel_delivery id s = (CancelResult.notFound id, s)) ∧
    (∀ d : Delivery, storeGet s id = some d →
      d.status ∈ non_cancellable_statuses →
      cancel_delivery id s = (CancelResult.invalidTransition d.status, s)) ∧
    (∀ d : Delivery, storeGet s id = some d →
      d.status ∉ non_cancellable_statuses →
      cancel_delivery id s
          = (CancelResult.success { d with status := Status.CANCELED },
             storeSet s id { d with status := Status.CANCELED }) ∧
        storeGet (cancel_delivery id s).2 id
          = some { d with status := Status.CANCELED }) := by
  refine ⟨?_, ?_, ?_⟩
  · intro h
    simp [cancel_delivery, h]
  · intro d hget hmem
    simp [cancel_delivery, hget, hmem]
  · intro d hget hmem
    refine ⟨?_, ?_⟩
    · simp [cancel_delivery, hget, hmem]
    · simp [cancel_delivery, hget, hmem, storeGet_storeSet_self]

/-- Witness for C4: the three branches at concrete stores. -/
theorem C4_cancel_delivery_spec_witness :
    (storeGet [] "W0" = none ∧
      cancel_delivery "W0" [] = (CancelResult.notFound "W0", [])) ∧
    (storeGet [("W2", wDelivered)] "W2" = some wDelivered ∧
      wDelivered.status ∈ non_cancellable_statuses ∧
      cancel_delivery "W2" [("W2", wDelivered)]
        = (CancelResult.invalidTransition wDelivered.status,
           [("W2", wDelivered)])) ∧
    (storeGet [("W1", wDelivery)] "W1" = some wDelivery ∧
      wDelivery.status ∉ non_cancellable_statuses ∧
      cancel_delivery "W1" [("W1", wDelivery)]
        = (CancelResult.success { wDelivery with status := Status.CANCELED },
           storeSet [("W1", wDelivery)] "W1"
             { wDelivery with status := Status.CANCELED })) :=
  ⟨⟨by decide, (C4_cancel_delivery_spec [] "W0").1 (by decide)⟩,
   ⟨by decide, by decide,
    (C4_cancel_delivery_spec [("W2", wDelivered)] "W2").2.1 wDelivered
      (by decide) (by decide)⟩,
   ⟨by decide, by decide,
    ((C4_cancel_delivery_spec [("W1", wDelivery)] "W1").2.2 wDelivery
      (by decide) (by decide)).1⟩⟩

/-- C8: `list_active_deliveries` returns exactly the stored bindings whose
status is neither DELIVERED nor CANCELED. -/
theorem C8_list_active_spec (s : Store) (p : String × Delivery) :
    p ∈ list_active_deliveries s ↔
      p ∈ s ∧ p.2.status ≠ Status.DELIVERED ∧ p.2.status ≠ Status.CANCELED := by
  simp [list_active_deliveries, List.mem_filter, and_assoc]

/-- C10: a successful cancellation changes only the status field: the
identifier, locations, order value, creation time, courier, estimated
time and tracking reference of the stored and returned record are those
of the previous record. -/
theorem C10_cancel_frame (s : Store) (id : String) (d : Delivery)
    (hget : storeGet s id = some d)
    (hc : d.status ∉ non_cancellable_statuses) :
    ∃ d2 : Delivery,
      cancel_delivery id s = (CancelResult.success d2, storeSet s id d2) ∧
      storeGet (cancel_delivery id s).2 id = some d2 ∧
      d2.status = Status.CANCELED ∧
      d2.external_delivery_id = d.external_delivery_id ∧
      d2.pickup = d.pickup ∧
      d2.dropoff = d.dropoff ∧
      d2.order_value = d.order_value ∧
      d2.created_at = d.created_at ∧
      d2.dasher = d.dasher ∧
      d2.estimated_delivery_time = d.estimated_delivery_time ∧
      d2.tracking_url = d.tracking_url := by
  refine ⟨{ d with status := Status.CANCELED }, ?_, ?_, rfl, rfl, rfl, rfl,
    rfl, rfl, rfl, rfl, rfl⟩
  · simp [cancel_delivery, hget, hc]
  · simp [cancel_delivery, hget, hc, storeGet_storeSet_self]

/-- Witness for C10 at a concrete store. -/
theorem C10_cancel_frame_witness :
    storeGet [("W1", wDelivery)] "W1" = some wDelivery ∧
    wDelivery.status ∉ non_cancellable_statuses ∧
    ∃ d2 : Delivery,
      cancel_delivery "W1" [("W1", wDelivery)]
          = (CancelResult.success d2, storeSet [("W1", wDelivery)] "W1" d2) ∧
      storeGet (cancel_delivery "W1" [("W1", wDelivery)]).2 "W1" = some d2 ∧
      d2.status = Status.CANCELED ∧
      d2.external_delivery_id = wDelivery.external_delivery_id ∧
      d2.pickup = wDelivery.pickup ∧
      d2.dropoff = wDelivery.dropoff ∧
      d2.order_value = wDelivery.order_value ∧
      d2.created_at = wDelivery.created_at ∧
      d2.dasher = wDelivery.dasher ∧
      d2.estimated_delivery_time = wDelivery.estimated_delivery_time ∧
      d2.tracking_url = wDelivery.tracking_url :=
  ⟨by decide, by decide,
   C10_cancel_frame [("W1", wDelivery)] "W1" wDelivery (by decide) (by decide)⟩

/-- C1 (counterexample): creating twice with the same explicit identifier
"DUP" does not fail — the second call succeeds and the stored record now
carries the second call's order value 200, no longer the first call's
100.  `create_delivery` has no duplicate check at all. -/
theorem C1_counterexample :
    (storeGet (create_delivery (some "DUP") "A1" none none none "B1"
        none none none 100 "G1" 0 []).1 "DUP").map (fun d => d.order_value)
      = some 100 ∧
    (storeGet (create_delivery (some "DUP") "A2" none none none "B2"
        none none none 200 "G2" 1
        (create_delivery (some "DUP") "A1" none none none "B1"
          none none none 100 "G1" 0 []).1).1 "DUP").map (fun d => d.order_value)
      = some 200 := by
  exact ⟨rfl, rfl⟩

/-- C1 (amended): `create_delivery` never reports a duplicate identifier;
called with an explicit identifier already bound in the store, it
succeeds and silently replaces the stored record with the newly built
one. -/
theorem C1_create_overwrites_existing (s : Store) (id : String)
    (dOld : Delivery) (hid : id ≠ "") (hold : storeGet s id = some dOld)
    (pa : String) (pb pp pi : Option String) (da : String)
    (db dp di : Option String) (ov : Int) (genId : String) (now : Nat) :
    storeGet (create_delivery (some id) pa pb pp pi da db dp di
        ov genId now s).1 id
      = some (create_delivery (some id) pa pb pp pi da db dp di
        ov genId now s).2 ∧
    (create_delivery (some id) pa pb pp pi da db dp di ov genId now s).2
      = { external_delivery_id := id,
          pickup := { address := pa, business_name := pb,
                      phone_number := pp, instructions := pi },
          dropoff := { address := da, business_name := db,
                       phone_number := dp, instructions := di },
          order_value := ov, status := Status.CREATED, created_at := now } := by
  constructor
  · simp [create_delivery, hid, storeGet_storeSet_self]
  · simp [create_delivery, hid]

/-- Witness for C1 (amended): overwrite a present binding. -/
theorem C1_create_overwrites_existing_witness :
    ("W1" : String) ≠ "" ∧
    storeGet [("W1", wDelivery)] "W1" = some wDelivery ∧
    (storeGet (create_delivery (some "W1") "A2" none none none "B2"
        none none none 200 "G2" 7 [("W1", wDelivery)]).1 "W1"
      = some (create_delivery (some "W1") "A2" none none none "B2"
        none none none 200 "G2" 7 [("W1", wDelivery)]).2 ∧
    (create_delivery (some "W1") "A2" none none none "B2"
        none none none 200 "G2" 7 [("W1", wDelivery)]).2
      = { external_delivery_id := "W1",
          pickup := { address := "A2", business_name := none,
                      phone_number := none, instructions := none },
          dropoff := { address := "B2", business_name := none,
                       phone_number := none, instructions := none },
          order_value := 200, status := Status.CREATED, created_at := 7 }) :=
  ⟨by decide, by decide,
   C1_create_overwrites_existing [("W1", wDelivery)] "W1" wDelivery
     (by decide) (by decide) "A2" none none none "B2" none none none 200 "G2" 7⟩

/-- C9 (counterexample): `create_delivery` accepts and stores a record
with an empty pickup address, an empty dropoff address and a negative
order value — no data-model validation occurs. -/
theorem C9_counterexample :
    (create_delivery (some "BAD") "" none none none "" none none none
        (-5) "G" 0 []).2.pickup.address = "" ∧
    (create_delivery (some "BAD") "" none none none "" none none none
        (-5) "G" 0 []).2.order_value = -5 ∧
    storeGet (create_delivery (some "BAD") "" none none none "" none none none
        (-5) "G" 0 []).1 "BAD"
      = some (create_delivery (some "BAD") "" none none none "" none none none
        (-5) "G" 0 []).2 := by
  exact ⟨rfl, rfl, rfl⟩

/-- C9 (amended): `create_delivery` performs no validation: the stored
and returned record carries the caller-supplied fields verbatim —
whatever address strings and order value were passed, including empty
addresses and negative values. -/
theorem C9_create_no_validation (id : String) (hid : id ≠ "") (pa : String)
    (pb pp pi : Option String) (da : String) (db dp di : Option String)
    (ov : Int) (genId : String) (now : Nat) (s : Store) :
    (create_delivery (some id) pa pb pp pi da db dp di ov genId now s).2.pickup.address
        = pa ∧
    (create_delivery (some id) pa pb pp pi da db dp di ov genId now s).2.dropoff.address
        = da ∧
    (create_delivery (some id) pa pb pp pi da db dp di ov genId now s).2.order_value
        = ov ∧
    storeGet (create_delivery (some id) pa pb pp pi da db dp di ov genId now s).1 id
      = some (create_delivery (some id) pa pb pp pi da db dp di ov genId now s).2 := by
  refine ⟨rfl, rfl, rfl, ?_⟩
  simp [create_delivery, hid, storeGet_storeSet_self]

/-- Witness for C9 (amended) at the invalid concrete input. -/
theorem C9_create_no_validation_witness :
    ("BAD" : String) ≠ "" ∧
    ((create_delivery (some "BAD") "" none none none "" none none none
        (-5) "G" 0 []).2.pickup.address = "" ∧
     (create_delivery (some "BAD") "" none none none "" none none none
        (-5) "G" 0 []).2.dropoff.address = "" ∧
     (create_delivery (some "BAD") "" none none none "" none none none
        (-5) "G" 0 []).2.order_value = -5 ∧
     storeGet (create_delivery (some "BAD") "" none none none "" none none none
        (-5) "G" 0 []).1 "BAD"
       = some (create_delivery (some "BAD") "" none none none "" none none none
        (-5) "G" 0 []).2) :=
  ⟨by decide,
   C9_create_no_validation "BAD" (by decide) "" none none none "" none none none
     (-5) "G" 0 []⟩

/-- C2 (code bug, concrete evaluation): create a delivery, cancel it
immediately (the cancellation is accepted and the observed status becomes
CANCELED), then let the engine's first scheduled block fire — contrary to
the claim, the block performs no re-check and overwrites the status with
CONFIRMED. -/
theorem C2_engine_overwrites_cancel :
    ValidTrace [Event.cancel, Event.step 0 wEnv] ∧
    observedStatuses [] wDelivery [Event.cancel, Event.step 0 wEnv]
      = [Status.CREATED, Status.CANCELED, Status.CONFIRMED] := by
  exact ⟨by decide, rfl⟩

/-- C3 (code bug, concrete evaluation): along the valid interleaving
"cancel, then engine block 0", the deduplicated observed status sequence
is CREATED, CANCELED, CONFIRMED — not a subsequence of the forward chain
optionally ended by a terminal CANCELED. -/
theorem C3_history_violation :
    ValidTrace [Event.cancel, Event.step 0 wEnv] ∧
    dedupConsec (observedStatuses [] wDelivery
        [Event.cancel, Event.step 0 wEnv])
      = [Status.CREATED, Status.CANCELED, Status.CONFIRMED] ∧
    legalHistory [Status.CREATED, Status.CANCELED, Status.CONFIRMED] = false := by
  exact ⟨by decide, rfl, by decide⟩

lemma isSome_false_eq_none {α : Type} {a : Option α} (h : a.isSome = false) :
    a = none := by
  cases a
  · rfl
  · simp at h

/-- C5 (counterexample): run the engine to DASHER_ASSIGNED and then
cancel: cancellation is accepted (DASHER_ASSIGNED is cancellable) and
the record keeps its courier while the status is CANCELED — so "courier
assigned" is not equivalent to "status in the four assigned states". -/
theorem C5_counterexample :
    ValidTrace [Event.step 0 wEnv, Event.step 1 wEnv, Event.cancel] ∧
    (List.foldl (applyEvent []) wDelivery
        [Event.step 0 wEnv, Event.step 1 wEnv, Event.cancel]).status
      = Status.CANCELED ∧
    (List.foldl (applyEvent []) wDelivery
        [Event.step 0 wEnv, Event.step 1 wEnv, Event.cancel]).dasher.isSome
      = true ∧
    Status.CANCELED ∉ assignedStatuses := by
  exact ⟨by decide, rfl, rfl, by decide⟩

/-- C5 (amended): one direction holds: along every valid interleaving
from a freshly created record, whenever the status is DASHER_ASSIGNED,
PICKUP_IN_PROGRESS, ENROUTE_TO_DROPOFF or DELIVERED a courier is
assigned.  (The converse fails: a record canceled after assignment keeps
its courier, see the counterexample.) -/
theorem C5_courier_assigned_of_status (dashers : List Dasher)
    (eid : Option String) (pa : String) (pb pp pi : Option String)
    (da : String) (db dp di : Option String) (ov : Int) (genId : String)
    (now : Nat) (s : Store) (es : List Event) (hv : ValidTrace es)
    (hst : (List.foldl (applyEvent dashers)
        (create_delivery eid pa pb pp pi da db dp di ov genId now s).2
        es).status ∈ assignedStatuses) :
    (List.foldl (applyEvent dashers)
        (create_delivery eid pa pb pp pi da db dp di ov genId now s).2
        es).dasher.isSome = true := by
  have hinv := run_inv dashers es 0
    (create_delivery eid pa pb pp pi da db dp di ov genId now s).2 hv
    ⟨Or.inl rfl, rfl, rfl, rfl⟩
  have hlen := validTrace_length_le hv
  rcases hinv.status_ok with hok | hok
  · have h2 : 2 ≤ 0 + (stepIndices es).length :=
      chainAt_mem_assigned (by omega) (hok ▸ hst)
    rw [hinv.dasher_ok]
    exact decide_eq_true (by omega)
  · rw [hok] at hst
    exact absurd hst (by decide)

/-- Witness for C5 (amended): after blocks 0 and 1 the status is
DASHER_ASSIGNED and a courier is present. -/
theorem C5_courier_assigned_of_status_witness :
    ValidTrace [Event.step 0 wEnv, Event.step 1 wEnv] ∧
    (List.foldl (applyEvent [])
        (create_delivery (some "W1") "100 Main St" none none none
          "200 Oak Ave" none none none 1999 "G0" 0 []).2
        [Event.step 0 wEnv, Event.step 1 wEnv]).status ∈ assignedStatuses ∧
    (List.foldl (applyEvent [])
        (create_delivery (some "W1") "100 Main St" none none none
          "200 Oak Ave" none none none 1999 "G0" 0 []).2
        [Event.step 0 wEnv, Event.step 1 wEnv]).dasher.isSome = true :=
  ⟨by decide, by decide,
   C5_courier_assigned_of_status [] (some "W1") "100 Main St" none none none
     "200 Oak Ave" none none none 1999 "G0" 0 []
     [Event.step 0 wEnv, Event.step 1 wEnv] (by decide) (by decide)⟩

/-- C6: on a freshly created record the uninterrupted engine performs
exactly five transitions whose delays — each counted from the completion
of the previous step — are 2, 5, 8, 5, 10, setting CONFIRMED, then
DASHER_ASSIGNED (at that moment assigning a courier drawn from the pool,
generating the tracking reference, and setting the estimated delivery
time to now plus the oracle's 25–45 minute offset), then
PICKUP_IN_PROGRESS, ENROUTE_TO_DROPOFF, DELIVERED, and emits one
notification message per step. -/
theorem C6_engine_schedule (env : AssignEnv) (dashers : List Dasher)
    (eid : Option String) (pa : String) (pb pp pi : Option String)
    (da : String) (db dp di : Option String) (ov : Int) (genId : String)
    (now : Nat) (s : Store)
    (h25 : 25 ≤ env.etaMinutes) (h45 : env.etaMinutes ≤ 45) :
    (simulate_delivery_progress env dashers
        (create_delivery eid pa pb pp pi da db dp di ov genId now s).2).map
          (fun x => x.1) = engineDelays ∧
    engineDelays = [2, 5, 8, 5, 10] ∧
    (simulate_delivery_progress env dashers
        (create_delivery eid pa pb pp pi da db dp di ov genId now s).2).map
          (fun x => x.2.1.status)
      = [Status.CONFIRMED, Status.DASHER_ASSIGNED, Status.PICKUP_IN_PROGRESS,
         Status.ENROUTE_TO_DROPOFF, Status.DELIVERED] ∧
    (simulate_delivery_progress env dashers
        (create_delivery eid pa pb pp pi da db dp di ov genId now s).2).map
          (fun x => x.2.1.dasher)
      = [none, some (get_random_dasher dashers env.dasherChoice).1,
         some (get_random_dasher dashers env.dasherChoice).1,
         some (get_random_dasher dashers env.dasherChoice).1,
         some (get_random_dasher dashers env.dasherChoice).1] ∧
    (get_random_dasher dashers env.dasherChoice).1
      ∈ (if dashers.isEmpty then generate_sample_dashers else dashers) ∧
    (simulate_delivery_progress env dashers
        (create_delivery eid pa pb pp pi da db dp di ov genId now s).2).map
          (fun x => x.2.1.estimated_delivery_time)
      = [none, some (env.now + env.etaMinutes), some (env.now + env.etaMinutes),
         some (env.now + env.etaMinutes), some (env.now + env.etaMinutes)] ∧
    env.now + 25 ≤ env.now + env.etaMinutes ∧
    env.now + env.etaMinutes ≤ env.now + 45 ∧
    (simulate_delivery_progress env dashers
        (create_delivery eid pa pb pp pi da db dp di ov genId now s).2).map
          (fun x => x.2.1.tracking_url)
      = [none,
         some (generate_tracking_url
           (create_delivery eid pa pb pp pi da db dp di ov genId now s).2.external_delivery_id),
         some (generate_tracking_url
           (create_delivery eid pa pb pp pi da db dp di ov genId now s).2.external_delivery_id),
         some (generate_tracking_url
           (create_delivery eid pa pb pp pi da db dp di ov genId now s).2.external_delivery_id),
         some (generate_tracking_url
           (create_delivery eid pa pb pp pi da db dp di ov genId now s).2.external_delivery_id)] ∧
    (simulate_delivery_progress env dashers
        (create_delivery eid pa pb pp pi da db dp di ov genId now s).2).map
          (fun x => x.2.2)
      = [ "Delivery "
            ++ (create_delivery eid pa pb pp pi da db dp di ov genId now s).2.external_delivery_id
            ++ " confirmed",
          "Dasher " ++ (get_random_dasher dashers env.dasherChoice).1.name
            ++ " assigned to delivery "
            ++ (create_delivery eid pa pb pp pi da db dp di ov genId now s).2.external_delivery_id,
          "Dasher " ++ (get_random_dasher dashers env.dasherChoice).1.name
            ++ " arriving at pickup location",
          "Dasher " ++ (get_random_dasher dashers env.dasherChoice).1.name
            ++ " en route to delivery address",
          "Delivery "
            ++ (create_delivery eid pa pb pp pi da db dp di ov genId now s).2.external_delivery_id
            ++ " completed" ] := by
  refine ⟨rfl, rfl, rfl, rfl, get_random_dasher_mem dashers env.dasherChoice,
    rfl, by omega, by omega, rfl, rfl⟩

/-- Witness for C6 with the sample oracle (30-minute offset). -/
theorem C6_engine_schedule_witness :
    25 ≤ wEnv.etaMinutes ∧ wEnv.etaMinutes ≤ 45 ∧
    (simulate_delivery_progress wEnv []
        (create_delivery (some "W1") "100 Main St" none none none
          "200 Oak Ave" none none none 1999 "G0" 0 []).2).map
          (fun x => x.1) = engineDelays ∧
    (simulate_delivery_progress wEnv []
        (create_delivery (some "W1") "100 Main St" none none none
          "200 Oak Ave" none none none 1999 "G0" 0 []).2).map
          (fun x => x.2.1.status)
      = [Status.CONFIRMED, Status.DASHER_ASSIGNED, Status.PICKUP_IN_PROGRESS,
         Status.ENROUTE_TO_DROPOFF, Status.DELIVERED] :=
  ⟨by decide, by decide,
   (C6_engine_schedule wEnv [] (some "W1") "100 Main St" none none none
     "200 Oak Ave" none none none 1999 "G0" 0 [] (by decide) (by decide)).1,
   (C6_engine_schedule wEnv [] (some "W1") "100 Main St" none none none
     "200 Oak Ave" none none none 1999 "G0" 0 [] (by decide) (by decide)).2.2.1⟩

/-- C7: on a freshly created record, the estimated delivery time and the
tracking reference are absent while fewer than two engine blocks have
fired, are present from the courier-assignment block (block 1) onward,
and no later event of any valid interleaving — engine step or
cancellation (queries are read-only) — changes them: extending the trace
leaves the values set at assignment intact. -/
theorem C7_eta_tracking_set_once (dashers : List Dasher)
    (eid : Option String) (pa : String) (pb pp pi : Option String)
    (da : String) (db dp di : Option String) (ov : Int) (genId : String)
    (now : Nat) (s : Store) :
    (∀ es : List Event, ValidTrace es → (stepIndices es).length < 2 →
      (List.foldl (applyEvent dashers)
          (create_delivery eid pa pb pp pi da db dp di ov genId now s).2
          es).estimated_delivery_time = none ∧
      (List.foldl (applyEvent dashers)
          (create_delivery eid pa pb pp pi da db dp di ov genId now s).2
          es).tracking_url = none) ∧
    (∀ es es2 : List Event, ValidTrace (es ++ es2) →
      2 ≤ (stepIndices es).length →
      (List.foldl (applyEvent dashers)
          (create_delivery eid pa pb pp pi da db dp di ov genId now s).2
          es).estimated_delivery_time.isSome = true ∧
      (List.foldl (applyEvent dashers)
          (create_delivery eid pa pb pp pi da db dp di ov genId now s).2
          es).tracking_url.isSome = true ∧
      (List.foldl (applyEvent dashers)
          (create_delivery eid pa pb pp pi da db dp di ov genId now s).2
          (es ++ es2)).estimated_delivery_time
        = (List.foldl (applyEvent dashers)
            (create_delivery eid pa pb pp pi da db dp di ov genId now s).2
            es).estimated_delivery_time ∧
      (List.foldl (applyEvent dashers)
          (create_delivery eid pa pb pp pi da db dp di ov genId now s).2
          (es ++ es2)).tracking_url
        = (List.foldl (applyEvent dashers)
            (create_delivery eid pa pb pp pi da db dp di ov genId now s).2
            es).tracking_url ∧
      (List.foldl (applyEvent dashers)
          (create_delivery eid pa pb pp pi da db dp di ov genId now s).2
          (es ++ es2)).dasher
        = (List.foldl (applyEvent dashers)
            (create_delivery eid pa pb pp pi da db dp di ov genId now s).2
            es).dasher) := by
  constructor
  · intro es hv hlt
    have hinv := run_inv dashers es 0
      (create_delivery eid pa pb pp pi da db dp di ov genId now s).2 hv
      ⟨Or.inl rfl, rfl, rfl, rfl⟩
    constructor
    · refine isSome_false_eq_none ?_
      rw [hinv.eta_ok]
      exact decide_eq_false (by omega)
    · refine isSome_false_eq_none ?_
      rw [hinv.tracking_ok]
      exact decide_eq_false (by omega)
  · intro es es2 hv h2
    obtain ⟨hes, hes2⟩ := validTrace_split hv
    have hinv := run_inv dashers es 0
      (create_delivery eid pa pb pp pi da db dp di ov genId now s).2 hes
      ⟨Or.inl rfl, rfl, rfl, rfl⟩
    have hmem : ∀ x ∈ stepIndices es2, 2 ≤ x := by
      intro x hx
      rw [hes2] at hx
      have hb := mem_natRange.mp hx
      omega
    have hpres := foldl_preserve_assigned dashers es2
      (List.foldl (applyEvent dashers)
        (create_delivery eid pa pb pp pi da db dp di ov genId now s).2 es) hmem
    refine ⟨?_, ?_, ?_, ?_, ?_⟩
    · rw [hinv.eta_ok]
      exact decide_eq_true (by omega)
    · rw [hinv.tracking_ok]
      exact decide_eq_true (by omega)
    · rw [List.foldl_append]
      exact hpres.2.2
    · rw [List.foldl_append]
      exact hpres.2.1
    · rw [List.foldl_append]
      exact hpres.1

/-- Witness for C7: fire blocks 0 and 1, then a cancellation: the values
set at assignment are present before and unchanged after. -/
theorem C7_eta_tracking_set_once_witness :
    ValidTrace ([Event.step 0 wEnv, Event.step 1 wEnv] ++ [Event.cancel]) ∧
    2 ≤ (stepIndices [Event.step 0 wEnv, Event.step 1 wEnv]).length ∧
    ((List.foldl (applyEvent [])
        (create_delivery (some "W1") "100 Main St" none none none
          "200 Oak Ave" none none none 1999 "G0" 0 []).2
        [Event.step 0 wEnv, Event.step 1 wEnv]).estimated_delivery_time.isSome
      = true ∧
     (List.foldl (applyEvent [])
        (create_delivery (some "W1") "100 Main St" none none none
          "200 Oak Ave" none none none 1999 "G0" 0 []).2
        ([Event.step 0 wEnv, Event.step 1 wEnv] ++ [Event.cancel])).estimated_delivery_time
      = (List.foldl (applyEvent [])
          (create_delivery (some "W1") "100 Main St" none none none
            "200 Oak Ave" none none none 1999 "G0" 0 []).2
          [Event.step 0 wEnv, Event.step 1 wEnv]).estimated_delivery_time) :=
  ⟨by decide, by decide,
   ((C7_eta_tracking_set_once [] (some "W1") "100 Main St" none none none
      "200 Oak Ave" none none none 1999 "G0" 0 []).2
      [Event.step 0 wEnv, Event.step 1 wEnv] [Event.cancel]
      (by decide) (by decide)).1,
   ((C7_eta_tracking_set_once [] (some "W1") "100 Main St" none none none
      "200 Oak Ave" none none none 1999 "G0" 0 []).2
      [Event.step 0 wEnv, Event.step 1 wEnv] [Event.cancel]
      (by decide) (by decide)).2.2.1⟩
